import Mathlib

/-
  Verification development for the ascii_video repository
  (ascii_image.py, ascii_fast.py, ascii_video.py).

  The three scripts share one pipeline: pre-render the character ramp into
  fixed-size RGB stamps (pre_render_chars), downsample each frame to a
  coarse grid, quantize brightness to palette indices, gather the stamps by
  index, swap axes and reshape into the composed frame.  Below, numpy
  arrays are embedded as functions from coordinates to channel values with
  the dimensions carried separately; numpy reshape is embedded through
  row-major flat-index arithmetic, exactly as numpy defines it.
-/

namespace AsciiVideo

/-- The ramp ASCII_CHARS from the source, darkest to lightest,
identical in all three scripts. -/
def asciiChars : List Char :=
  [' ', '.', ',', '-', '~', '+', '=', '@', '#', '%', '$']

/-- Length of the ramp (the source uses len(ASCII_CHARS)). -/
def rampLength : Nat := asciiChars.length

/-- Brightness quantization from the source:
indices = (img_small / 255 * (len(ASCII_CHARS) - 1)).astype(int).
For integer v in [0,255] the float computation agrees with exact
rational floor, so it is embedded as Nat floor division. -/
def quantIndex (v : Nat) : Nat := v * (rampLength - 1) / 255

/-- cols = w // char_w from the source grid computation. -/
def gridCols (w cw : Nat) : Nat := w / cw

/-- rows = h // char_h from the source grid computation. -/
def gridRows (h ch : Nat) : Nat := h / ch

/-- A glyph stamp: (y, x, channel) to channel value. -/
abbrev Stamp := Nat → Nat → Nat → Nat

/-- The palette char_palette: (index, y, x, channel) to channel value. -/
abbrev Palette := Nat → Nat → Nat → Nat → Nat

/-- An index grid: (row, col) to palette index. -/
abbrev Grid := Nat → Nat → Nat

/-- A 3-d image buffer: (y, x, channel) to channel value. -/
abbrev Image3 := Nat → Nat → Nat → Nat

/-- A 5-d tensor as produced by the gather step. -/
abbrev Tensor5 := Nat → Nat → Nat → Nat → Nat → Nat

/-- Step C result used in step D: tiled_chars = char_palette[indices],
advanced indexing producing the (rows, cols, char_h, char_w, 3) tensor. -/
def gatherStamps (palette : Palette) (index : Grid) : Tensor5 :=
  fun r c a b k => palette (index r c) a b k

/-- tiled_chars.swapaxes(1, 2): (rows, cols, h, w, 3) to (rows, h, cols, w, 3). -/
def swapAxes12 (t : Tensor5) : Tensor5 :=
  fun r a c b k => t r c a b k

/-- tiled_chars.reshape(rows * char_h, cols * char_w, 3): numpy reshape in
row-major order, embedded through the flat index.  The element of the
output at (i, j, k) has flat position (i * (cols * sw) + j) * 3 + k, which
is unflattened against the input shape (rows, sh, cols, sw, 3) with
row-major strides. -/
def reshape5to3 (sh cols sw : Nat) (t : Tensor5) : Image3 :=
  fun i j k =>
    let flat := (i * (cols * sw) + j) * 3 + k
    let r := flat / (sh * (cols * (sw * 3)))
    let rem1 := flat % (sh * (cols * (sw * 3)))
    let a := rem1 / (cols * (sw * 3))
    let rem2 := rem1 % (cols * (sw * 3))
    let c := rem2 / (sw * 3)
    let rem3 := rem2 % (sw * 3)
    let b := rem3 / 3
    let k2 := rem3 % 3
    t r a c b k2

/-- Steps C and D of the source pipeline: gather the stamps by the index
grid, swap the middle axes, reshape to the final image. -/
def composedFrame (palette : Palette) (index : Grid) (sh cols sw : Nat) : Image3 :=
  reshape5to3 sh cols sw (swapAxes12 (gatherStamps palette index))

/-- Shape of the composed frame: the source reshapes to
(rows * char_h, cols * char_w, 3). -/
def composedShape (h w ch cw : Nat) : Nat × Nat × Nat :=
  (gridRows h ch * ch, gridCols w cw * cw, 3)

/-- pre_render_chars: one stamp per ramp character, in ramp order.  The
rasterizer (PIL draw on a black canvas) is the external font collaborator,
abstracted as the function argument. -/
def prerenderChars (render : Char → Stamp) : List Stamp :=
  asciiChars.map render

/-- Grayscale conversion, the external cv2.cvtColor collaborator. -/
abbrev GrayFn := Image3 → Grid

/-- Nearest-neighbor resize, the external cv2.resize collaborator
(arguments: source, target cols, target rows). -/
abbrev ResizeFn := Grid → Nat → Nat → Grid

/-- The loop body of process_video_numpy (identical to the body of
process_image_numpy): grayscale, downsample to the grid, quantize,
gather-swap-reshape. -/
def composeOne (cvtGray : GrayFn) (resizeNN : ResizeFn) (palette : Palette)
    (sh sw cols rows : Nat) (frame : Image3) : Image3 :=
  let g := cvtGray frame
  let small := resizeNN g cols rows
  let indices : Grid := fun r c => quantIndex (small r c)
  composedFrame palette indices sh cols sw

/-- The frame loop of process_video_numpy: each frame is composed with the
one palette built before the loop; the palette is threaded through
unchanged because the loop only reads char_palette.  Returns the processed
frames and the palette as it stands after the loop. -/
def processFrames (cvtGray : GrayFn) (resizeNN : ResizeFn) (palette : Palette)
    (sh sw cols rows : Nat) : List Image3 → List Image3 × Palette
  | [] => ([], palette)
  | f :: rest =>
      (composeOne cvtGray resizeNN palette sh sw cols rows f ::
        (processFrames cvtGray resizeNN palette sh sw cols rows rest).1,
       (processFrames cvtGray resizeNN palette sh sw cols rows rest).2)

/-- The structured configuration failure the specification calls for on a
zero-sized grid. -/
inductive ConfigError where
  | zeroGrid : ConfigError
deriving Repr, DecidableEq

/-- The phase of process_image_numpy / process_video_numpy between the
grid computation and the start of rendering (grid dimensions, resolution
prints, palette pre-render).  The source contains no validation of rows or
cols in this span, so the phase always succeeds and hands the (possibly
zero) grid dimensions to the rendering steps. -/
def preRenderPhase (h w ch cw : Nat) : Except ConfigError (Nat × Nat) :=
  Except.ok (gridCols w cw, gridRows h ch)

/-- The top-level handler in main of all three scripts:
try: process(...) except Exception as e: print(f"Error: {e}"), after which
main returns normally.  Result: (printed lines, process exit code). -/
def mainHandler (r : Except String Unit) : List String × Nat :=
  match r with
  | Except.ok _ => ([], 0)
  | Except.error e => (["Error: " ++ e], 0)

/-- Rotation handling in ascii_video.py process_video_numpy:
if rotation in [90, 270]: w, h = h, w. -/
def swapForRotation (w h rotation : Nat) : Nat × Nat :=
  if rotation = 90 ∨ rotation = 270 then (h, w) else (w, h)

/-- Grid dimensions (cols, rows) in ascii_video.py: the rotation swap
followed by cols = w // char_w, rows = h // char_h. -/
def videoGridDims (w h cw ch rotation : Nat) : Nat × Nat :=
  (gridCols (swapForRotation w h rotation).1 cw,
   gridRows (swapForRotation w h rotation).2 ch)

/-- One digit bound for mixed-radix flat indices. -/
theorem digit_lt {x X y Y : Nat} (hx : x < X) (hy : y < Y) :
    x * Y + y < X * Y := by
  calc x * Y + y < x * Y + Y := Nat.add_lt_add_left hy _
    _ = (x + 1) * Y := by ring
    _ ≤ X * Y := Nat.mul_le_mul_right Y hx

/-- C1: the batched tiling (gather by the index grid, swapaxes(1,2),
reshape to (rows * sh, cols * sw, 3)) refines the per-cell blit: for every
grid cell (r, c) in range, the output pixel at (r * sh + a, c * sw + b, k)
is pixel (a, b, k) of the stamp palette[index r c]. -/
theorem tiling_refines_blit (palette : Palette) (index : Grid)
    (rows cols sh sw r c a b k : Nat)
    (hr : r < rows) (hc : c < cols) (ha : a < sh) (hb : b < sw) (hk : k < 3) :
    composedFrame palette index sh cols sw (r * sh + a) (c * sw + b) k
      = palette (index r c) a b k := by
  have h3 : b * 3 + k < sw * 3 := by omega
  have h2 : c * (sw * 3) + (b * 3 + k) < cols * (sw * 3) := digit_lt hc h3
  have h1 : a * (cols * (sw * 3)) + (c * (sw * 3) + (b * 3 + k))
      < sh * (cols * (sw * 3)) := digit_lt ha h2
  have hD1 : 0 < sh * (cols * (sw * 3)) := Nat.lt_of_le_of_lt (Nat.zero_le _) h1
  have hD2 : 0 < cols * (sw * 3) := Nat.lt_of_le_of_lt (Nat.zero_le _) h2
  have hD3 : 0 < sw * 3 := Nat.lt_of_le_of_lt (Nat.zero_le _) h3
  have e1 : ((r * sh + a) * (cols * sw) + (c * sw + b)) * 3 + k
      = (a * (cols * (sw * 3)) + (c * (sw * 3) + (b * 3 + k)))
        + (sh * (cols * (sw * 3))) * r := by ring
  have hdiv1 : (((r * sh + a) * (cols * sw) + (c * sw + b)) * 3 + k)
      / (sh * (cols * (sw * 3))) = r := by
    rw [e1, Nat.add_mul_div_left _ _ hD1, Nat.div_eq_of_lt h1, Nat.zero_add]
  have hmod1 : (((r * sh + a) * (cols * sw) + (c * sw + b)) * 3 + k)
      % (sh * (cols * (sw * 3)))
      = a * (cols * (sw * 3)) + (c * (sw * 3) + (b * 3 + k)) := by
    rw [e1, Nat.add_mul_mod_self_left, Nat.mod_eq_of_lt h1]
  have e2 : a * (cols * (sw * 3)) + (c * (sw * 3) + (b * 3 + k))
      = (c * (sw * 3) + (b * 3 + k)) + (cols * (sw * 3)) * a := by ring
  have hdiv2 : (a * (cols * (sw * 3)) + (c * (sw * 3) + (b * 3 + k)))
      / (cols * (sw * 3)) = a := by
    rw [e2, Nat.add_mul_div_left _ _ hD2, Nat.div_eq_of_lt h2, Nat.zero_add]
  have hmod2 : (a * (cols * (sw * 3)) + (c * (sw * 3) + (b * 3 + k)))
      % (cols * (sw * 3)) = c * (sw * 3) + (b * 3 + k) := by
    rw [e2, Nat.add_mul_mod_self_left, Nat.mod_eq_of_lt h2]
  have e3 : c * (sw * 3) + (b * 3 + k) = (b * 3 + k) + (sw * 3) * c := by ring
  have hdiv3 : (c * (sw * 3) + (b * 3 + k)) / (sw * 3) = c := by
    rw [e3, Nat.add_mul_div_left _ _ hD3, Nat.div_eq_of_lt h3, Nat.zero_add]
  have hmod3 : (c * (sw * 3) + (b * 3 + k)) % (sw * 3) = b * 3 + k := by
    rw [e3, Nat.add_mul_mod_self_left, Nat.mod_eq_of_lt h3]
  have hdiv4 : (b * 3 + k) / 3 = b := by omega
  have hmod4 : (b * 3 + k) % 3 = k := by omega
  simp only [composedFrame, reshape5to3, swapAxes12, gatherStamps]
  rw [hdiv1, hmod1, hdiv2, hmod2, hdiv3, hmod3, hdiv4, hmod4]

/-- A concrete palette for witnesses, stamp pixels encode coordinates. -/
def wPalette : Palette := fun i y x ch => 1000 * i + 100 * y + 10 * x + ch

/-- A concrete index grid for witnesses. -/
def wIndex : Grid := fun r c => 2 * r + c

/-- Witness for C1 at rows 2, cols 3, stamp 2 by 2, cell (1, 2),
pixel (1, 1), channel 2. -/
theorem tiling_refines_blit_witness :
    ((1 : Nat) < 2 ∧ (2 : Nat) < 3 ∧ (1 : Nat) < 2 ∧ (1 : Nat) < 2
      ∧ (2 : Nat) < 3)
    ∧ composedFrame wPalette wIndex 2 3 2 (1 * 2 + 1) (2 * 2 + 1) 2
      = wPalette (wIndex 1 2) 1 1 2 :=
  ⟨by decide,
   tiling_refines_blit wPalette wIndex 2 3 2 2 1 2 1 1 2 (by decide)
     (by decide) (by decide) (by decide) (by decide)⟩

/-- C2: quantization maps v in [0,255] to floor(v / 255 * (N - 1)) clamped
to [0, N - 1]; brightness 0 maps to index 0 and 255 to index N - 1. -/
theorem quant_linear_boundaries (v : Nat) (hv : v ≤ 255) :
    quantIndex v = min (v * (rampLength - 1) / 255) (rampLength - 1)
    ∧ quantIndex 0 = 0 ∧ quantIndex 255 = rampLength - 1 := by
  refine ⟨?_, by decide, by decide⟩
  have hram : rampLength - 1 = 10 := rfl
  rw [quantIndex, hram]
  have hle : v * 10 / 255 ≤ 10 := by omega
  exact (Nat.min_eq_left hle).symm

/-- Witness for C2 at v = 100. -/
theorem quant_linear_boundaries_witness :
    (100 : Nat) ≤ 255
    ∧ (quantIndex 100 = min (100 * (rampLength - 1) / 255) (rampLength - 1)
      ∧ quantIndex 0 = 0 ∧ quantIndex 255 = rampLength - 1) :=
  ⟨by decide, quant_linear_boundaries 100 (by decide)⟩

/-- C3: the composed frame has shape exactly
(h / ch * ch, w / cw * cw, 3), never larger than the input frame. -/
theorem composed_shape_exact (h w ch cw : Nat) (hch : 1 ≤ ch) (hcw : 1 ≤ cw) :
    composedShape h w ch cw = (h / ch * ch, w / cw * cw, 3)
    ∧ h / ch * ch ≤ h ∧ w / cw * cw ≤ w :=
  ⟨rfl, Nat.div_mul_le_self h ch, Nat.div_mul_le_self w cw⟩

/-- Witness for C3 at a 22 by 40 frame with a 4 by 2 stamp. -/
theorem composed_shape_exact_witness :
    ((1 : Nat) ≤ 4 ∧ (1 : Nat) ≤ 2)
    ∧ (composedShape 22 40 4 2 = (22 / 4 * 4, 40 / 2 * 2, 3)
      ∧ 22 / 4 * 4 ≤ 22 ∧ 40 / 2 * 2 ≤ 40) :=
  ⟨by decide, composed_shape_exact 22 40 4 2 (by decide) (by decide)⟩

/-- C4 counterexample: with a 1 by 1 frame and a 2 by 2 stamp the grid has
zero rows and zero columns, yet the pre-rendering phase raises no
configuration failure: it returns Except.ok (0, 0) and rendering is
entered, contradicting the claim that a structured failure is raised
before any rendering work begins. -/
theorem zero_grid_not_prevalidated_cex :
    gridRows 1 2 = 0 ∧ gridCols 1 2 = 0
    ∧ preRenderPhase 1 1 2 2 = Except.ok (0, 0) :=
  ⟨rfl, rfl, rfl⟩

/-- C4 amended: the code performs no zero-grid validation; the
pre-rendering phase always succeeds, handing the possibly zero grid to the
rendering steps, and any exception later reaching main is printed with the
process exiting 0 rather than failing hard. -/
theorem zero_grid_not_prevalidated (h w ch cw : Nat) :
    preRenderPhase h w ch cw = Except.ok (gridCols w cw, gridRows h ch)
    ∧ (∀ e, (mainHandler (Except.error e)).2 = 0) :=
  ⟨rfl, fun _ => rfl⟩

/-- C5 counterexample: a decode failure reaching main prints the message
but the exit code is 0, so the claimed non-zero exit is false. -/
theorem failure_exit_code_cex :
    (mainHandler (Except.error "decode failed")).1 = ["Error: decode failed"]
    ∧ ¬ (mainHandler (Except.error "decode failed")).2 ≠ 0 :=
  ⟨rfl, fun hne => hne rfl⟩

/-- C5 amended: on any top-level failure the program prints the error
message and exits with code 0 (main catches the exception, prints, and
returns normally). -/
theorem failure_prints_and_exits_zero (e : String) :
    mainHandler (Except.error e) = (["Error: " ++ e], 0) := rfl

/-- C6: frame composition is deterministic: running the compositor twice
on the same frame with the same palette and grid dimensions yields
identical composed frames. -/
theorem compose_deterministic (cvtGray : GrayFn) (resizeNN : ResizeFn)
    (palette : Palette) (sh sw cols rows : Nat) (f : Image3) :
    (processFrames cvtGray resizeNN palette sh sw cols rows [f, f]).1.get? 0
      = (processFrames cvtGray resizeNN palette sh sw cols rows [f, f]).1.get? 1 :=
  rfl

/-- C7: for declared rotation 90 or 270, the grid dimensions are computed
from swapped width and height: cols = height / stampWidth and
rows = width / stampHeight. -/
theorem rotation_swaps_grid_dims (w h cw ch rot : Nat)
    (hrot : rot = 90 ∨ rot = 270) :
    videoGridDims w h cw ch rot = (gridCols h cw, gridRows w ch) := by
  rcases hrot with h90 | h270 <;> subst_vars <;>
    simp [videoGridDims, swapForRotation]

/-- Witness for C7: a 100 by 64 clip with a 6 by 10 stamp at rotation 90. -/
theorem rotation_swaps_grid_dims_witness :
    ((90 : Nat) = 90 ∨ (90 : Nat) = 270)
    ∧ videoGridDims 100 64 6 10 90 = (gridCols 64 6, gridRows 100 10) :=
  ⟨Or.inl rfl, rotation_swaps_grid_dims 100 64 6 10 90 (Or.inl rfl)⟩

/-- C8: quantization is monotone non-decreasing in brightness. -/
theorem quant_monotone (v1 v2 : Nat) (hlt : v1 < v2) :
    quantIndex v1 ≤ quantIndex v2 := by
  unfold quantIndex
  have hram : rampLength - 1 = 10 := rfl
  rw [hram]
  omega

/-- Witness for C8 at v1 = 10, v2 = 200. -/
theorem quant_monotone_witness :
    (10 : Nat) < 200 ∧ quantIndex 10 ≤ quantIndex 200 :=
  ⟨by decide, quant_monotone 10 200 (by decide)⟩

/-- C9: the palette is never mutated by the frame loop: after processing
any list of frames, every stamp pixel of the palette equals its value
before the loop. -/
theorem palette_not_mutated (cvtGray : GrayFn) (resizeNN : ResizeFn)
    (palette : Palette) (sh sw cols rows : Nat) (frames : List Image3)
    (i y x ch : Nat) :
    (processFrames cvtGray resizeNN palette sh sw cols rows frames).2 i y x ch
      = palette i y x ch := by
  induction frames with
  | nil => rfl
  | cons f rest ih => simpa [processFrames] using ih

/-- C10: for every grayscale value v in [0,255] the computed index lies in
[0, N - 1] for the ramp of length 11, so the palette lookup is in bounds
and never hits the out-of-range branch. -/
theorem quant_lookup_in_bounds (render : Char → Stamp) (v : Nat)
    (hv : v ≤ 255) :
    quantIndex v < (prerenderChars render).length
    ∧ ((prerenderChars render).get? (quantIndex v)).isSome := by
  have hlen : (prerenderChars render).length = 11 := by
    simp [prerenderChars, asciiChars]
  have hq : quantIndex v = v * 10 / 255 := rfl
  have hlt : quantIndex v < 11 := by rw [hq]; omega
  refine ⟨by rw [hlen]; exact hlt, ?_⟩
  cases hsome : (prerenderChars render).get? (quantIndex v) with
  | none =>
      exfalso
      rw [List.get?_eq_none] at hsome
      omega
  | some s => rfl

/-- A concrete rasterizer for the C10 witness: all-zero stamps. -/
def wRender : Char → Stamp := fun _ _ _ _ => 0

/-- Witness for C10 at v = 255. -/
theorem quant_lookup_in_bounds_witness :
    (255 : Nat) ≤ 255
    ∧ (quantIndex 255 < (prerenderChars wRender).length
      ∧ ((prerenderChars wRender).get? (quantIndex 255)).isSome) :=
  ⟨by decide, quant_lookup_in_bounds wRender 255 (by decide)⟩

end AsciiVideo
